import Mathlib

/-!
Verification of the job-recommendation pipeline in `src/model.py`
(`JobRecommendationSystem`): document text extraction, feature encoding,
category scoring, recommendation ranking, course enrichment with its
fallback text parser, and the top-level orchestrator.

External artifacts (the trained classifier, the fitted vectorizer, the
file system, and the HTTP layer) are opaque at the source level; they are
modelled as parameters of the embedding.  Scores and confidences are
modelled as integers: the source treats them as an opaque linearly
ordered type and only compares them.  Python strings are modelled as
Lean strings, with the Python operations used by the source (`lower`,
`strip`, `startswith`, `endswith`, `split`, `find`, `rfind`, slicing,
substring membership) given explicit executable definitions below.
-/

/-! ### Python string primitives -/

/-- Whitespace characters stripped by Python `str.strip()`. -/
def pyIsWs (c : Char) : Bool :=
  c = ' ' ∨ c = '\t' ∨ c = '\n' ∨ c = '\r' ∨ c = '\x0b' ∨ c = '\x0c'

/-- ASCII lowercase of one character, as Python `str.lower()` acts on ASCII. -/
def pyLowerChar (c : Char) : Char :=
  if 'A' ≤ c ∧ c ≤ 'Z' then Char.ofNat (c.toNat + 32) else c

/-- Model of Python `s.lower()` (ASCII range). -/
def pyLower (s : String) : String :=
  String.mk (s.toList.map pyLowerChar)

/-- Model of Python `s.strip()`. -/
def pyTrim (s : String) : String :=
  String.mk (((s.toList.dropWhile pyIsWs).reverse.dropWhile pyIsWs).reverse)

/-- Test that the character list `p` is an initial segment of `l`. -/
def leadsWith : List Char → List Char → Bool
  | [], _ => true
  | _ :: _, [] => false
  | p :: ps, c :: cs => p = c && leadsWith ps cs

/-- Model of Python `s.startswith(p)`. -/
def pyStartsWith (s p : String) : Bool :=
  leadsWith p.toList s.toList

/-- Model of Python `s.endswith(p)`. -/
def pyEndsWith (s p : String) : Bool :=
  leadsWith p.toList.reverse s.toList.reverse

/-- Test that `needle` occurs contiguously inside the second list. -/
def listContainsSub (needle : List Char) : List Char → Bool
  | [] => needle.isEmpty
  | c :: cs => leadsWith needle (c :: cs) || listContainsSub needle cs

/-- Model of the Python membership test `needle in hay` on strings. -/
def strContainsSub (hay needle : String) : Bool :=
  listContainsSub needle.toList hay.toList

/-- Helper for `splitLines`: accumulates the current line (reversed). -/
def splitLinesAux (cur : List Char) : List Char → List String
  | [] => [String.mk cur.reverse]
  | c :: cs =>
      if c = '\n' then String.mk cur.reverse :: splitLinesAux [] cs
      else splitLinesAux (c :: cur) cs

/-- Model of Python `s.split(backslash-n)`: splits on newline, keeping empty pieces. -/
def splitLines (s : String) : List String :=
  splitLinesAux [] s.toList

/-- Model of Python `s.split(c, 1)`: split at the first occurrence of `c` only. -/
def pySplit1 (s : String) (c : Char) : List String :=
  match s.toList.findIdx? (· = c) with
  | none => [s]
  | some i => [String.mk (s.toList.take i), String.mk (s.toList.drop (i + 1))]

/-- Model of Python `s.find(c)`: index of the first occurrence, `-1` if absent. -/
def pyFind (s : String) (c : Char) : Int :=
  match s.toList.findIdx? (· = c) with
  | some i => (i : Int)
  | none => -1

/-- Model of Python `s.rfind(c)`: index of the last occurrence, `-1` if absent. -/
def pyRFind (s : String) (c : Char) : Int :=
  match s.toList.reverse.findIdx? (· = c) with
  | some i => (s.toList.length : Int) - 1 - (i : Int)
  | none => -1

/-- Normalisation of one Python slice endpoint for a sequence of length `len`. -/
def pySliceIdx (len : Nat) (i : Int) : Nat :=
  if i < 0 then (max ((len : Int) + i) 0).toNat else min i.toNat len

/-- Model of the Python string slice `s[i:j]`. -/
def pySlice (s : String) (i j : Int) : String :=
  let cs := s.toList
  let a := pySliceIdx cs.length i
  let b := pySliceIdx cs.length j
  String.mk ((cs.drop a).take (b - a))

/-- Model of the Python list slice `l[i:]`. -/
def pySliceFromInt {α : Type} (l : List α) (i : Int) : List α :=
  l.drop (pySliceIdx l.length i)

/-- Model of the Python string slice `s[:n]` for `n ≥ 0`. -/
def pyTakeStr (n : Nat) (s : String) : String :=
  String.mk (s.toList.take n)

/-- Model of Python `(backslash-n).join l`. -/
def joinNl : List String → String
  | [] => ""
  | [s] => s
  | s :: rest => s ++ "\n" ++ joinNl rest

/-! ### JSON values and a model of `json.loads`

The source calls `json.loads` on a substring of the API response.  The
library is modelled here by an executable parser for the standard JSON
grammar (numbers are kept as their lexemes, since the source never
inspects them; `\uXXXX` string escapes are decoded as the single code
point, without surrogate pairing). -/

inductive Json where
  | null
  | bool (b : Bool)
  | num (lexeme : String)
  | str (s : String)
  | arr (elems : List Json)
  | obj (fields : List (String × Json))
deriving Repr

/-- The character `{` (written via its code point). -/
def lbrace : Char := Char.ofNat 123

/-- The character `}` (written via its code point). -/
def rbrace : Char := Char.ofNat 125

/-- Skip JSON insignificant whitespace. -/
def jsonSkipWs : List Char → List Char
  | [] => []
  | c :: cs =>
      if c = ' ' ∨ c = '\t' ∨ c = '\n' ∨ c = '\r' then jsonSkipWs cs
      else c :: cs

/-- Hexadecimal digit value. -/
def hexVal? (c : Char) : Option Nat :=
  if '0' ≤ c ∧ c ≤ '9' then some (c.toNat - '0'.toNat)
  else if 'a' ≤ c ∧ c ≤ 'f' then some (c.toNat - 'a'.toNat + 10)
  else if 'A' ≤ c ∧ c ≤ 'F' then some (c.toNat - 'A'.toNat + 10)
  else none

/-- Simple JSON string escape characters. -/
def jsonUnescape? (c : Char) : Option Char :=
  if c = '"' then some '"'
  else if c = '\\' then some '\\'
  else if c = '/' then some '/'
  else if c = 'b' then some '\x08'
  else if c = 'f' then some '\x0c'
  else if c = 'n' then some '\n'
  else if c = 'r' then some '\r'
  else if c = 't' then some '\t'
  else none

/-- Parse the body of a JSON string after the opening quote; returns the
decoded characters and the rest of the input after the closing quote. -/
def parseStrChars : List Char → Option (List Char × List Char)
  | [] => none
  | '"' :: cs => some ([], cs)
  | '\\' :: 'u' :: h1 :: h2 :: h3 :: h4 :: cs => do
      let a ← hexVal? h1
      let b ← hexVal? h2
      let c ← hexVal? h3
      let d ← hexVal? h4
      let (r, rest) ← parseStrChars cs
      some (Char.ofNat (a * 4096 + b * 256 + c * 16 + d) :: r, rest)
  | '\\' :: e :: cs => do
      let e2 ← jsonUnescape? e
      let (r, rest) ← parseStrChars cs
      some (e2 :: r, rest)
  | c :: cs => do
      let (r, rest) ← parseStrChars cs
      some (c :: r, rest)

/-- Characters that can occur inside a JSON number lexeme. -/
def isNumChar (c : Char) : Bool :=
  c.isDigit || c = '-' || c = '+' || c = '.' || c = 'e' || c = 'E'

/-- Validate the exponent part of a JSON number (empty is allowed). -/
def validExp : List Char → Bool
  | [] => true
  | c :: t =>
      if c = 'e' ∨ c = 'E' then
        let t2 := match t with
          | s :: u => if s = '+' ∨ s = '-' then u else s :: u
          | [] => []
        match t2.span Char.isDigit with
        | ([], _) => false
        | (_, rest) => rest.isEmpty
      else false

/-- Validate the fraction-and-exponent tail of a JSON number. -/
def validFrac : List Char → Bool
  | [] => true
  | '.' :: t =>
      (match t.span Char.isDigit with
       | ([], _) => false
       | (_, rest) => validExp rest)
  | l => validExp l

/-- Validate a complete JSON number lexeme. -/
def validNum (l : List Char) : Bool :=
  let l1 := match l with
    | '-' :: t => t
    | _ => l
  match l1 with
  | [] => false
  | '0' :: t => validFrac t
  | c :: t => c.isDigit && validFrac (t.dropWhile Char.isDigit)

mutual

/-- Fuel-indexed parser for one JSON value; returns the value and the rest. -/
def parseVal : Nat → List Char → Option (Json × List Char)
  | 0, _ => none
  | fuel + 1, cs =>
    match jsonSkipWs cs with
    | [] => none
    | 'n' :: 'u' :: 'l' :: 'l' :: rest => some (.null, rest)
    | 't' :: 'r' :: 'u' :: 'e' :: rest => some (.bool true, rest)
    | 'f' :: 'a' :: 'l' :: 's' :: 'e' :: rest => some (.bool false, rest)
    | '"' :: rest =>
      (match parseStrChars rest with
       | some (s, rest2) => some (.str (String.mk s), rest2)
       | none => none)
    | '[' :: rest =>
      (match jsonSkipWs rest with
       | ']' :: rest2 => some (.arr [], rest2)
       | _ =>
         match parseElems fuel rest with
         | some (es, rest2) => some (.arr es, rest2)
         | none => none)
    | c :: rest =>
      if c = lbrace then
        match jsonSkipWs rest with
        | [] => none
        | d :: rest2 =>
          if d = rbrace then some (.obj [], rest2)
          else
            match parseMembers fuel (d :: rest2) with
            | some (fs, rest3) => some (.obj fs, rest3)
            | none => none
      else if c = '-' ∨ c.isDigit then
        match (c :: rest).span isNumChar with
        | (numCs, rest2) =>
          if validNum numCs then some (.num (String.mk numCs), rest2) else none
      else none

/-- Fuel-indexed parser for the elements of a non-empty JSON array. -/
def parseElems : Nat → List Char → Option (List Json × List Char)
  | 0, _ => none
  | fuel + 1, cs =>
    match parseVal fuel cs with
    | none => none
    | some (v, rest) =>
      match jsonSkipWs rest with
      | ',' :: rest2 =>
        (match parseElems fuel rest2 with
         | some (vs, rest3) => some (v :: vs, rest3)
         | none => none)
      | ']' :: rest2 => some ([v], rest2)
      | _ => none

/-- Fuel-indexed parser for the members of a non-empty JSON object. -/
def parseMembers : Nat → List Char → Option (List (String × Json) × List Char)
  | 0, _ => none
  | fuel + 1, cs =>
    match jsonSkipWs cs with
    | '"' :: rest =>
      (match parseStrChars rest with
       | none => none
       | some (k, rest2) =>
         match jsonSkipWs rest2 with
         | ':' :: rest3 =>
           (match parseVal fuel rest3 with
            | none => none
            | some (v, rest4) =>
              match jsonSkipWs rest4 with
              | [] => none
              | e :: rest5 =>
                if e = ',' then
                  match parseMembers fuel rest5 with
                  | some (ms, rest6) => some ((String.mk k, v) :: ms, rest6)
                  | none => none
                else if e = rbrace then some ([(String.mk k, v)], rest5)
                else none)
         | _ => none)
    | _ => none

end

/-- Model of `json.loads`: parse a complete JSON document, requiring that
only whitespace remains after the value. -/
def parseJson (s : String) : Option Json :=
  match parseVal (2 * s.length + 2) s.toList with
  | some (v, rest) => if jsonSkipWs rest = [] then some v else none
  | none => none

/-! ### Data model -/

/-- A course record, as the dictionaries built by the source
(`course_name`, `provider`, `description`, `url`, `relevance`). -/
structure CourseRecord where
  course_name : String
  provider : String
  description : String
  url : String
  relevance : String
deriving Repr, DecidableEq

/-- One job recommendation: `job_title` with its `confidence` score. -/
structure JobRec where
  job_title : String
  confidence : Int
deriving Repr, DecidableEq

/-- The value returned by `get_training_courses`: either the list obtained
by `json.loads` on the bracketed span (returned as parsed JSON), or a list
of course dictionaries built by the source itself. -/
inductive CoursesResult where
  | ofJson (v : Json)
  | ofRecords (l : List CourseRecord)
deriving Repr

/-- One entry of the `recommendations` list built by `process_resume_file`. -/
structure JobRecWithCourses where
  job_title : String
  confidence : Int
  training_courses : CoursesResult
deriving Repr

/-- The exceptions raised by the source code of `extract_text_from_resume`:
`FileNotFoundError` and `ValueError`, each carrying its message. -/
inductive PyErr where
  | fileNotFound (msg : String)
  | valueError (msg : String)
deriving Repr, DecidableEq

/-- Python `str(e)` of an exception: its message. -/
def pyStr : PyErr → String
  | .fileNotFound m => m
  | .valueError m => m

/-- The result of `process_resume_file`: one of the two dictionary shapes
`recommendations: [...]` or `error: message`. -/
inductive PipelineResult where
  | recommendations (results : List JobRecWithCourses)
  | error (msg : String)
deriving Repr

/-- Opaque file system and document parsers used by the extractor:
`os.path.exists`, `pdfplumber` (per-page `extract_text()`, which may return
`None`, modelled as `Option`), and `python-docx` (per-paragraph text).
A parser returning `.error` models the underlying library raising. -/
structure FS where
  pathExists : String → Bool
  pdfExtract : String → Except String (List (Option String))
  docxExtract : String → Except String (List String)

/-- Outcome of the one `requests.post` call in `get_training_courses`:
either an HTTP response, or a transport exception.  `textResponse` models
reading `response.json()["candidates"][0]["content"]["parts"][0]["text"]`
(`.error msg` models that chain raising, with `msg` the exception text);
`errorDetail` models `response.json().get("error", {}).get("message",
"Unknown error")` (`none` models that chain raising); `rawText` models
`response.text`. -/
inductive ApiOutcome where
  | response (status : Nat) (textResponse : Except String String)
      (errorDetail : Option String) (rawText : String)
  | exn (msg : String)

/-- The system state after `__init__`: the loaded opaque artifacts.
`transform` models `self.vectorizer.transform` on one text, flattened to
the single feature row (`none` models the transform raising);
`inputWidth` models `self.model.input_shape[1]`; `predict` models
`self.model.predict` returning its single row of per-category scores
(`none` models prediction raising); `job_titles` models the loaded
index-to-label dictionary; `gemini_api_key` models the environment
credential; `api` models the network for one enrichment call. -/
structure JobRecommendationSystem where
  transform : String → Option (List Int)
  inputWidth : Nat
  predict : List Int → Option (List Int)
  job_titles : List (String × String)
  gemini_api_key : Option String
  api : String → String → ApiOutcome

/-! ### `extract_text_from_resume` -/

/-- Translation of `JobRecommendationSystem.extract_text_from_resume`. -/
def extract_text_from_resume (fs : FS) (file_path : String) : Except PyErr String :=
  if fs.pathExists file_path = false then
    .error (.fileNotFound ("Resume file not found: " ++ file_path))
  else if pyEndsWith (pyLower file_path) ".pdf" then
    match fs.pdfExtract file_path with
    | .ok pages => .ok (joinNl (pages.map (fun p => p.getD "")))
    | .error e => .error (.valueError ("Error extracting text from PDF: " ++ e))
  else if pyEndsWith (pyLower file_path) ".docx" then
    match fs.docxExtract file_path with
    | .ok paras => .ok (joinNl paras)
    | .error e => .error (.valueError ("Error extracting text from DOCX: " ++ e))
  else
    .error (.valueError "Unsupported file format. Only .pdf and .docx are supported.")

/-! ### `preprocess_resume` -/

/-- Translation of `JobRecommendationSystem.preprocess_resume`: on a
transform exception it returns `np.zeros((1, self.model.input_shape[1]))`,
modelled as the zero vector of width `inputWidth`. -/
def preprocess_resume (S : JobRecommendationSystem) (resume_text : String) : List Int :=
  match S.transform resume_text with
  | some features => features
  | none => List.replicate S.inputWidth 0

/-! ### `get_top_job_recommendations` -/

/-- The comparison `np.argsort` sorts by: ascending score, with ties kept
in ascending index order.  This models the stable behaviour of
`np.argsort` (exact for its stable kinds, and for the small arrays here,
which the default introsort handles by stable insertion sort). -/
def argsortR (s : List Int) (i j : Nat) : Prop :=
  s.getD i 0 < s.getD j 0 ∨ (s.getD i 0 = s.getD j 0 ∧ i ≤ j)

instance argsortRDec (s : List Int) : DecidableRel (argsortR s) := fun i j =>
  decidable_of_iff (s.getD i 0 < s.getD j 0 ∨ (s.getD i 0 = s.getD j 0 ∧ i ≤ j)) Iff.rfl

instance argsortRTotal (s : List Int) : IsTotal Nat (argsortR s) := ⟨by
  intro i j
  rcases lt_trichotomy (s.getD i 0) (s.getD j 0) with h | h | h
  · exact Or.inl (Or.inl h)
  · rcases Nat.le_total i j with hij | hij
    · exact Or.inl (Or.inr ⟨h, hij⟩)
    · exact Or.inr (Or.inr ⟨h.symm, hij⟩)
  · exact Or.inr (Or.inl h)⟩

instance argsortRTrans (s : List Int) : IsTrans Nat (argsortR s) := ⟨by
  intro a b c hab hbc
  rcases hab with h1 | ⟨e1, l1⟩ <;> rcases hbc with h2 | ⟨e2, l2⟩
  · exact Or.inl (h1.trans h2)
  · exact Or.inl (e2 ▸ h1)
  · exact Or.inl (e1 ▸ h2)
  · exact Or.inr ⟨e1.trans e2, l1.trans l2⟩⟩

/-- Model of `np.argsort(scores)`: the indices `0, ..., len-1` sorted by
ascending score (ties in ascending index order). -/
def argsort (s : List Int) : List Nat :=
  List.insertionSort (argsortR s) (List.range s.length)

/-- The label the source resolves for index `idx`:
`self.job_titles.get(str(idx), f"Job Category (idx+1)")`. -/
def jobLabel (S : JobRecommendationSystem) (idx : Nat) : String :=
  (S.job_titles.lookup (toString idx)).getD ("Job Category " ++ toString (idx + 1))

/-- The index selection of `get_top_job_recommendations`:
`top_n = min(top_n, len(self.job_titles))` followed by
`np.argsort(predictions[0])[-top_n:][::-1]`. -/
def top_indices_of (S : JobRecommendationSystem) (preds : List Int) (top_n : Nat) : List Nat :=
  let k := min top_n S.job_titles.length
  (pySliceFromInt (argsort preds) (-(k : Int))).reverse

/-- Translation of `JobRecommendationSystem.get_top_job_recommendations`.
A prediction exception yields the sentinel
`[{"job_title": "Error in prediction", "confidence": 0.0}]`. -/
def get_top_job_recommendations (S : JobRecommendationSystem)
    (resume_text : String) (top_n : Nat) : List JobRec :=
  let features := preprocess_resume S resume_text
  match S.predict features with
  | none => [⟨"Error in prediction", 0⟩]
  | some preds =>
      (top_indices_of S preds top_n).map
        (fun idx => ⟨jobLabel S idx, preds.getD idx 0⟩)

/-! ### `_extract_courses_from_text` (fallback parser) -/

/-- The enumerator tokens starting a new course section. -/
def enumTokens : List String :=
  ["1.", "2.", "3.", "Course 1:", "Course 2:", "Course 3:"]

/-- Translation of the section-start test
`line.strip().startswith(('1.', '2.', '3.', 'Course 1:', 'Course 2:', 'Course 3:'))`. -/
def isEnumLine (line : String) : Bool :=
  enumTokens.any (fun t => pyStartsWith (pyTrim line) t)

/-- One step of the section-splitting loop, over the state
`(sections, current_section)`. -/
def sectionStep (acc : List String × String) (line : String) : List String × String :=
  if isEnumLine line then
    (if acc.2 ≠ "" then acc.1 ++ [acc.2] else acc.1, line)
  else if acc.2 ≠ "" then (acc.1, acc.2 ++ "\n" ++ line)
  else acc

/-- The section-splitting loop of `_extract_courses_from_text`, including
the trailing `if current_section: sections.append(current_section)`. -/
def splitSections (lines : List String) : List String :=
  let r := lines.foldl sectionStep ([], "")
  if r.2 ≠ "" then r.1 ++ [r.2] else r.1

/-- The per-line field update of `_extract_courses_from_text`: strip the
line, then match the keyword triggers in priority order, and when the line
has a colon overwrite the matched field with the trimmed text after the
first colon. -/
def applyCourseLine (course : CourseRecord) (line0 : String) : CourseRecord :=
  let line := pyTrim line0
  let low := pyLower line
  if strContainsSub low "course" || strContainsSub low "name" then
    match pySplit1 line ':' with
    | [_, v] => { course with course_name := pyTrim v }
    | _ => course
  else if strContainsSub low "provider" then
    match pySplit1 line ':' with
    | [_, v] => { course with provider := pyTrim v }
    | _ => course
  else if strContainsSub low "description" then
    match pySplit1 line ':' with
    | [_, v] => { course with description := pyTrim v }
    | _ => course
  else if strContainsSub low "url" || strContainsSub low "http" then
    match pySplit1 line ':' with
    | [_, v] => { course with url := pyTrim v }
    | _ => course
  else if strContainsSub low "relevan" then
    match pySplit1 line ':' with
    | [_, v] => { course with relevance := pyTrim v }
    | _ => course
  else course

/-- Build one course record from a section: defaults plus the full section
text as `description`, then the per-line updates. -/
def buildCourse (s : String) : CourseRecord :=
  (splitLines s).foldl applyCourseLine ⟨"Unknown Course", "Unknown Provider", s, "", ""⟩

/-- Translation of `JobRecommendationSystem._extract_courses_from_text`. -/
def extract_courses_from_text (text : String) : List CourseRecord :=
  ((splitSections (splitLines text)).map buildCourse).take 3

/-! ### `get_training_courses` -/

/-- The sentinel returned when no API credential is configured. -/
def apiKeyMissingRecord : CourseRecord :=
  ⟨"API Key Missing", "N/A",
   "No Gemini API key provided in environment variables.", "",
   "Please set the VITE_GEMINI_API_KEY environment variable."⟩

/-- The sentinel returned from the exception path. -/
def exceptionRecord (msg : String) : CourseRecord :=
  ⟨"Exception", "N/A", "Exception when calling Gemini API: " ++ msg, "",
   "Please check your network connection."⟩

/-- The sentinel returned on a non-200 HTTP status. -/
def apiErrorRecord (error_msg : String) : CourseRecord :=
  ⟨"API Error", "N/A", error_msg, "",
   "Please check your API key and network connection."⟩

/-- Translation of `JobRecommendationSystem.get_training_courses`,
additionally reporting whether the network call (`requests.post`) was
reached (`false` exactly on the missing-credential early return). -/
def get_training_coursesFull (S : JobRecommendationSystem)
    (job_title resume_text : String) : CoursesResult × Bool :=
  match S.gemini_api_key with
  | none => (.ofRecords [apiKeyMissingRecord], false)
  | some _ =>
    match S.api job_title resume_text with
    | .exn msg => (.ofRecords [exceptionRecord msg], true)
    | .response status textResponse errorDetail rawText =>
      if status = 200 then
        match textResponse with
        | .error msg => (.ofRecords [exceptionRecord msg], true)
        | .ok text =>
          let json_start := pyFind text '['
          let json_end := pyRFind text ']' + 1
          if 0 ≤ json_start ∧ 0 < json_end then
            match parseJson (pySlice text json_start json_end) with
            | some v => (.ofJson v, true)
            | none => (.ofRecords (extract_courses_from_text text), true)
          else (.ofRecords (extract_courses_from_text text), true)
      else
        let detail := match errorDetail with
          | some d => d
          | none => pyTakeStr 100 rawText
        (.ofRecords
          [apiErrorRecord ("Error calling Gemini API: " ++ toString status ++ " - " ++ detail)],
         true)

/-- The course list returned by `get_training_courses`. -/
def get_training_courses (S : JobRecommendationSystem)
    (job_title resume_text : String) : CoursesResult :=
  (get_training_coursesFull S job_title resume_text).1

/-! ### `process_resume_file` -/

/-- The body of the `try` block of `process_resume_file`: extraction is
the only step whose exceptions reach this level (every other step catches
internally). -/
def process_resume_fileE (S : JobRecommendationSystem) (fs : FS)
    (file_path : String) : Except PyErr (List JobRecWithCourses) := do
  let resume_text ← extract_text_from_resume fs file_path
  let jobs := get_top_job_recommendations S resume_text 3
  pure (jobs.map (fun job =>
    ⟨job.job_title, job.confidence, get_training_courses S job.job_title resume_text⟩))

/-- Translation of `JobRecommendationSystem.process_resume_file`: the
top-level catch-all converts any exception `e` to `{"error": str(e)}`. -/
def process_resume_file (S : JobRecommendationSystem) (fs : FS)
    (file_path : String) : PipelineResult :=
  match process_resume_fileE S fs file_path with
  | .ok res => .recommendations res
  | .error e => .error (pyStr e)

/-! ### Helper lemmas -/

theorem foldl_sectionStep_nil : ∀ (lines : List String),
    (∀ l ∈ lines, isEnumLine l = false) →
    lines.foldl sectionStep ([], "") = ([], "")
  | [], _ => rfl
  | a :: t, h => by
    have ha : isEnumLine a = false := h a (List.mem_cons_self a t)
    have hstep : sectionStep ([], "") a = ([], "") := by
      simp [sectionStep, ha]
    rw [List.foldl_cons, hstep]
    exact foldl_sectionStep_nil t (fun l hl => h l (List.mem_cons_of_mem a hl))

theorem splitSections_eq_nil (lines : List String)
    (h : ∀ l ∈ lines, isEnumLine l = false) : splitSections lines = [] := by
  unfold splitSections
  rw [foldl_sectionStep_nil lines h]
  rfl

theorem argsort_sorted (s : List Int) : List.Sorted (argsortR s) (argsort s) :=
  List.sorted_insertionSort _ _

theorem argsort_nodup (s : List Int) : (argsort s).Nodup :=
  ((List.perm_insertionSort (argsortR s) (List.range s.length)).symm).nodup
    (List.nodup_range _)

theorem argsort_length (s : List Int) : (argsort s).length = s.length :=
  (List.perm_insertionSort (argsortR s) (List.range s.length)).length_eq.trans
    (List.length_range _)

theorem argsort_pairwise_strict (s : List Int) :
    List.Pairwise
      (fun i j => s.getD i 0 < s.getD j 0 ∨ (s.getD i 0 = s.getD j 0 ∧ i < j))
      (argsort s) := by
  have h1 : List.Pairwise (argsortR s) (argsort s) := argsort_sorted s
  have h2 : List.Pairwise (fun i j : Nat => i ≠ j) (argsort s) := argsort_nodup s
  refine (h1.and h2).imp ?_
  rintro a b ⟨hr, hne⟩
  rcases hr with h | ⟨he, hle⟩
  · exact Or.inl h
  · exact Or.inr ⟨he, lt_of_le_of_ne hle hne⟩

theorem top_indices_pairwise (S : JobRecommendationSystem) (preds : List Int) (top_n : Nat) :
    List.Pairwise
      (fun i j => preds.getD j 0 < preds.getD i 0 ∨ (preds.getD i 0 = preds.getD j 0 ∧ j < i))
      (top_indices_of S preds top_n) := by
  unfold top_indices_of pySliceFromInt
  rw [List.pairwise_reverse]
  refine ((argsort_pairwise_strict preds).sublist (List.drop_sublist _ _)).imp ?_
  rintro a b (h | ⟨he, hlt⟩)
  · exact Or.inl h
  · exact Or.inr ⟨he.symm, hlt⟩

theorem top_indices_length (S : JobRecommendationSystem) (preds : List Int) (top_n : Nat)
    (h1 : 1 ≤ top_n) (h2 : 1 ≤ S.job_titles.length) :
    (top_indices_of S preds top_n).length ≤ min top_n preds.length := by
  unfold top_indices_of pySliceFromInt pySliceIdx
  have hk1 : 1 ≤ min top_n S.job_titles.length := le_min h1 h2
  rw [List.length_reverse, List.length_drop, argsort_length]
  have hneg : -((min top_n S.job_titles.length : Nat) : Int) < 0 := by
    omega
  rw [if_pos hneg]
  omega

/-! ### Sample instances used by witnesses and counterexamples -/

/-- A system with no configured API credential and two tied categories. -/
def sysTie : JobRecommendationSystem :=
  { transform := fun _ => some []
    inputWidth := 2
    predict := fun _ => some [5, 5]
    job_titles := [("0", "A"), ("1", "B")]
    gemini_api_key := none
    api := fun _ _ => .exn "no network" }

/-- A one-category system. -/
def sysOne : JobRecommendationSystem :=
  { transform := fun _ => some []
    inputWidth := 1
    predict := fun _ => some [7]
    job_titles := [("0", "A")]
    gemini_api_key := none
    api := fun _ _ => .exn "no network" }

/-- A system whose API responds 200 with a well-formed JSON list embedded
in prose that also contains a stray closing bracket after the list. -/
def sysSpan : JobRecommendationSystem :=
  { transform := fun _ => some []
    inputWidth := 1
    predict := fun _ => some [7]
    job_titles := [("0", "A")]
    gemini_api_key := some "k"
    api := fun _ _ => .response 200 (.ok "Here: [1] ok ]") none "" }

/-- A system whose API responds 200 with a JSON list embedded in prose
whose first bracket and last bracket delimit the list itself. -/
def sysProse : JobRecommendationSystem :=
  { transform := fun _ => some []
    inputWidth := 1
    predict := fun _ => some [7]
    job_titles := [("0", "A")]
    gemini_api_key := some "k"
    api := fun _ _ =>
      .response 200 (.ok "Here are courses: [\x7b\"course_name\":\"X\"\x7d] Thanks") none "" }

/-- A system whose API responds 200 with plain prose: no bracket and no
enumerated section. -/
def sysNoEnum : JobRecommendationSystem :=
  { transform := fun _ => some []
    inputWidth := 1
    predict := fun _ => some [7]
    job_titles := [("0", "A")]
    gemini_api_key := some "k"
    api := fun _ _ => .response 200 (.ok "no courses here.\nnothing found.") none "" }

/-- A system whose encoder transform raises. -/
def sysTransformFail : JobRecommendationSystem :=
  { transform := fun _ => none
    inputWidth := 4
    predict := fun _ => some [1]
    job_titles := [("0", "A")]
    gemini_api_key := none
    api := fun _ _ => .exn "no network" }

/-- A system whose prediction step raises. -/
def sysPredFail : JobRecommendationSystem :=
  { transform := fun _ => some []
    inputWidth := 2
    predict := fun _ => none
    job_titles := [("0", "A"), ("1", "B")]
    gemini_api_key := some "k"
    api := fun _ _ => .exn "down" }

/-- A file system on which no path exists. -/
def fsAbsent : FS := ⟨fun _ => false, fun _ => .error "e", fun _ => .error "e"⟩

/-- A file system where every path exists, PDF pages extract to
`["hello", None, "bye"]`, and the DOCX parser raises `boom`. -/
def fsPdf : FS :=
  ⟨fun _ => true, fun _ => .ok [some "hello", none, some "bye"], fun _ => .error "boom"⟩

/-! ### Claims -/

/-- C1: for every file path, `process_resume_file` never raises: the
result is always exactly one of the two mutually exclusive shapes
`recommendations` or `error`; in particular a path that does not exist
yields the `error` shape carrying the extractor message. -/
theorem process_resume_file_total_shapes (S : JobRecommendationSystem) (fs : FS)
    (path : String) :
    (fs.pathExists path = false →
      process_resume_file S fs path = .error ("Resume file not found: " ++ path)) ∧
    ((∃ res, process_resume_file S fs path = .recommendations res) ∨
     (∃ msg, process_resume_file S fs path = .error msg)) ∧
    ¬((∃ res, process_resume_file S fs path = .recommendations res) ∧
      (∃ msg, process_resume_file S fs path = .error msg)) := by
  refine ⟨?_, ?_, ?_⟩
  · intro h
    have hx : extract_text_from_resume fs path =
        .error (.fileNotFound ("Resume file not found: " ++ path)) := by
      unfold extract_text_from_resume
      rw [h]
      rfl
    unfold process_resume_file process_resume_fileE
    rw [hx]
    rfl
  · unfold process_resume_file
    cases process_resume_fileE S fs path with
    | ok res => exact Or.inl ⟨res, rfl⟩
    | error e => exact Or.inr ⟨pyStr e, rfl⟩
  · rintro ⟨⟨res, h1⟩, ⟨msg, h2⟩⟩
    rw [h1] at h2
    exact PipelineResult.noConfusion h2

/-- Witness for C1 at a concrete system and a nonexistent path. -/
theorem process_resume_file_total_shapes_witness :
    process_resume_file sysTie fsAbsent "resume.pdf" =
      .error "Resume file not found: resume.pdf" :=
  (process_resume_file_total_shapes sysTie fsAbsent "resume.pdf").1 rfl

/-- C2: the fallback parser on the two-course example yields exactly two
records whose providers are "Udemy" and "edX" in that order, and for
every input text at most the first 3 assembled sections are returned. -/
theorem extract_courses_example_and_cap :
    extract_courses_from_text "1. Course A\nProvider: Udemy\n2. Course B\nProvider: edX" =
      [⟨"Unknown Course", "Udemy", "1. Course A\nProvider: Udemy", "", ""⟩,
       ⟨"Unknown Course", "edX", "2. Course B\nProvider: edX", "", ""⟩] ∧
    ∀ text, (extract_courses_from_text text).length ≤ 3 := by
  constructor
  · decide
  · intro text
    unfold extract_courses_from_text
    rw [List.length_take]
    exact min_le_left _ _

/-- C3 counterexample: the response text `Here: [1] ok ]` embeds the
well-formed JSON list `[1]` inside surrounding prose, yet on a 200
response `get_training_courses` does not return the parsed list: the code
takes the substring from the first opening bracket to the last closing
bracket, `[1] ok ]`, whose parse fails, and the fallback parser then
yields the empty record list. -/
theorem gtc_first_span_counterexample :
    parseJson "[1]" = some (.arr [.num "1"]) ∧
    strContainsSub "Here: [1] ok ]" "[1]" = true ∧
    get_training_courses sysSpan "j" "r" = .ofRecords [] :=
  ⟨rfl, by decide, rfl⟩

/-- C3 (amended): on a 200 response the code extracts the substring from
the first opening bracket to the last closing bracket of the response
text (not the first top-level bracketed span) and attempts `json.loads`
on it; when that substring parses, the parsed value is returned, and when
either bracket is absent or the substring is malformed JSON, the call
falls through to the fallback parser. -/
theorem gtc_bracket_span_parse (S : JobRecommendationSystem)
    (job rt k text : String) (ed : Option String) (raw : String)
    (hk : S.gemini_api_key = some k)
    (ha : S.api job rt = .response 200 (.ok text) ed raw) :
    (∀ v, parseJson (pySlice text (pyFind text '[') (pyRFind text ']' + 1)) = some v →
        0 ≤ pyFind text '[' → 0 < pyRFind text ']' + 1 →
        get_training_courses S job rt = .ofJson v) ∧
    (¬(0 ≤ pyFind text '[' ∧ 0 < pyRFind text ']' + 1) →
        get_training_courses S job rt = .ofRecords (extract_courses_from_text text)) ∧
    (parseJson (pySlice text (pyFind text '[') (pyRFind text ']' + 1)) = none →
        get_training_courses S job rt = .ofRecords (extract_courses_from_text text)) := by
  unfold get_training_courses get_training_coursesFull
  rw [hk, ha]
  refine ⟨?_, ?_, ?_⟩
  · intro v hv h1 h2
    simp only [reduceIte]
    rw [if_pos (And.intro h1 h2), hv]
  · intro hcond
    simp only [reduceIte]
    rw [if_neg hcond]
  · intro hv
    simp only [reduceIte]
    by_cases hcond : 0 ≤ pyFind text '[' ∧ 0 < pyRFind text ']' + 1
    · rw [if_pos hcond, hv]
    · rw [if_neg hcond]

/-- Witness for C3: prose whose first and last brackets delimit the
embedded JSON list is extracted and parsed, ignoring the prose. -/
theorem gtc_bracket_span_parse_witness :
    get_training_courses sysProse "j" "r" =
      .ofJson (.arr [.obj [("course_name", .str "X")]]) :=
  (gtc_bracket_span_parse sysProse "j" "r" "k"
      "Here are courses: [\x7b\"course_name\":\"X\"\x7d] Thanks" none "" rfl rfl).1
    (.arr [.obj [("course_name", .str "X")]]) rfl (by decide) (by decide)

/-- C4 counterexample: with the tied score vector `[5, 5]` and labels
`A` for index 0 and `B` for index 1, the ranker returns `B` before `A`:
the tie is broken by the higher original index first, not the lower. -/
theorem rank_tie_order_counterexample :
    get_top_job_recommendations sysTie "t" 2 = [⟨"B", 5⟩, ⟨"A", 5⟩] := by
  decide

/-- C4 (amended): the selected indices are ordered by strictly descending
score, and two equally scored categories appear with the higher original
index first (the consequence of a stable ascending argsort followed by
the reversing slice); the output maps these indices to label and
confidence in that order. -/
theorem rank_sorted_ties_desc_index (S : JobRecommendationSystem)
    (rt : String) (top_n : Nat) (preds : List Int)
    (hp : S.predict (preprocess_resume S rt) = some preds) :
    List.Pairwise
      (fun i j => preds.getD j 0 < preds.getD i 0 ∨ (preds.getD i 0 = preds.getD j 0 ∧ j < i))
      (top_indices_of S preds top_n) ∧
    get_top_job_recommendations S rt top_n =
      (top_indices_of S preds top_n).map
        (fun idx => ⟨jobLabel S idx, preds.getD idx 0⟩) := by
  refine ⟨top_indices_pairwise S preds top_n, ?_⟩
  unfold get_top_job_recommendations
  simp only [hp]

/-- Witness for C4 at the tied concrete system. -/
theorem rank_sorted_ties_desc_index_witness :
    List.Pairwise
      (fun i j => ([5, 5] : List Int).getD j 0 < ([5, 5] : List Int).getD i 0 ∨
        (([5, 5] : List Int).getD i 0 = ([5, 5] : List Int).getD j 0 ∧ j < i))
      (top_indices_of sysTie [5, 5] 2) :=
  (rank_sorted_ties_desc_index sysTie "t" 2 [5, 5] rfl).1

/-- C5 counterexample: with `top_n = 0` the slice `[-0:]` is the whole
list, so the ranker returns one recommendation although
`min(top_n, category_count) = 0`. -/
theorem rank_topn_zero_counterexample :
    get_top_job_recommendations sysOne "t" 0 = [⟨"A", 7⟩] := by
  decide

/-- C5 (amended): whenever prediction succeeds, `top_n ≥ 1` and the job
title mapping is non-empty, the ranker returns at most
`min top_n category_count` recommendations (with `category_count` the
length of the score vector) in non-increasing confidence order. -/
theorem rank_length_le_and_sorted (S : JobRecommendationSystem)
    (rt : String) (top_n : Nat) (preds : List Int)
    (hp : S.predict (preprocess_resume S rt) = some preds)
    (h1 : 1 ≤ top_n) (h2 : 1 ≤ S.job_titles.length) :
    (get_top_job_recommendations S rt top_n).length ≤ min top_n preds.length ∧
    List.Pairwise (fun a b : JobRec => b.confidence ≤ a.confidence)
      (get_top_job_recommendations S rt top_n) := by
  have hout : get_top_job_recommendations S rt top_n =
      (top_indices_of S preds top_n).map
        (fun idx => ⟨jobLabel S idx, preds.getD idx 0⟩) := by
    unfold get_top_job_recommendations
    simp only [hp]
  constructor
  · rw [hout, List.length_map]
    exact top_indices_length S preds top_n h1 h2
  · rw [hout]
    rw [List.pairwise_map]
    refine (top_indices_pairwise S preds top_n).imp ?_
    rintro a b (h | ⟨he, _⟩)
    · exact le_of_lt h
    · exact le_of_eq he.symm

/-- Witness for C5 at a concrete one-category system with `top_n = 3`. -/
theorem rank_length_le_and_sorted_witness :
    (get_top_job_recommendations sysOne "t" 3).length ≤ min 3 ([7] : List Int).length :=
  (rank_length_le_and_sorted sysOne "t" 3 [7] rfl (by decide) (by decide)).1

/-- C6: with no configured API credential, `get_training_courses` returns
the single sentinel record whose `course_name` is "API Key Missing", and
the network call is never reached. -/
theorem no_api_key_sentinel (S : JobRecommendationSystem) (job rt : String)
    (hk : S.gemini_api_key = none) :
    get_training_coursesFull S job rt = (.ofRecords [apiKeyMissingRecord], false) ∧
    apiKeyMissingRecord.course_name = "API Key Missing" := by
  constructor
  · unfold get_training_coursesFull
    rw [hk]
  · rfl

/-- Witness for C6 at a concrete keyless system. -/
theorem no_api_key_sentinel_witness :
    get_training_coursesFull sysTie "j" "r" = (.ofRecords [apiKeyMissingRecord], false) :=
  (no_api_key_sentinel sysTie "j" "r" rfl).1

/-- C7: extraction fails with `FileNotFoundError` when the path does not
exist, with the unsupported-format `ValueError` when the extension
(case-insensitively) is neither `.pdf` nor `.docx`, and with a
`ValueError` wrapping the original cause when the underlying parser
raises; for a supported file whose parser succeeds it returns the joined
text, with no partial-text fallback. -/
theorem extract_text_error_taxonomy (fs : FS) (path : String) :
    (fs.pathExists path = false →
      extract_text_from_resume fs path =
        .error (.fileNotFound ("Resume file not found: " ++ path))) ∧
    (fs.pathExists path = true →
      pyEndsWith (pyLower path) ".pdf" = true →
      (∀ pages, fs.pdfExtract path = .ok pages →
        extract_text_from_resume fs path = .ok (joinNl (pages.map (fun p => p.getD "")))) ∧
      (∀ e, fs.pdfExtract path = .error e →
        extract_text_from_resume fs path =
          .error (.valueError ("Error extracting text from PDF: " ++ e)))) ∧
    (fs.pathExists path = true →
      pyEndsWith (pyLower path) ".pdf" = false →
      pyEndsWith (pyLower path) ".docx" = true →
      (∀ paras, fs.docxExtract path = .ok paras →
        extract_text_from_resume fs path = .ok (joinNl paras)) ∧
      (∀ e, fs.docxExtract path = .error e →
        extract_text_from_resume fs path =
          .error (.valueError ("Error extracting text from DOCX: " ++ e)))) ∧
    (fs.pathExists path = true →
      pyEndsWith (pyLower path) ".pdf" = false →
      pyEndsWith (pyLower path) ".docx" = false →
      extract_text_from_resume fs path =
        .error (.valueError "Unsupported file format. Only .pdf and .docx are supported.")) := by
  refine ⟨?_, ?_, ?_, ?_⟩
  · intro h
    unfold extract_text_from_resume
    rw [h]
    rfl
  · intro hex hpdf
    have hne : ¬(fs.pathExists path = false) := by simp [hex]
    constructor
    · intro pages hp
      unfold extract_text_from_resume
      rw [if_neg hne, if_pos hpdf, hp]
    · intro e hp
      unfold extract_text_from_resume
      rw [if_neg hne, if_pos hpdf, hp]
  · intro hex hpdf hdocx
    have hne : ¬(fs.pathExists path = false) := by simp [hex]
    have hnpdf : ¬(pyEndsWith (pyLower path) ".pdf" = true) := by simp [hpdf]
    constructor
    · intro paras hp
      unfold extract_text_from_resume
      rw [if_neg hne, if_neg hnpdf, if_pos hdocx, hp]
    · intro e hp
      unfold extract_text_from_resume
      rw [if_neg hne, if_neg hnpdf, if_pos hdocx, hp]
  · intro hex hpdf hdocx
    have hne : ¬(fs.pathExists path = false) := by simp [hex]
    have hnpdf : ¬(pyEndsWith (pyLower path) ".pdf" = true) := by simp [hpdf]
    have hndocx : ¬(pyEndsWith (pyLower path) ".docx" = true) := by simp [hdocx]
    unfold extract_text_from_resume
    rw [if_neg hne, if_neg hnpdf, if_neg hndocx]

/-- Witness for C7: PDF success, DOCX parser failure, and the unsupported
extension, at a concrete file system. -/
theorem extract_text_error_taxonomy_witness :
    extract_text_from_resume fsPdf "r.PDF" = .ok "hello\n\nbye" ∧
    extract_text_from_resume fsPdf "r.docx" =
      .error (.valueError "Error extracting text from DOCX: boom") ∧
    extract_text_from_resume fsAbsent "r.pdf" =
      .error (.fileNotFound "Resume file not found: r.pdf") :=
  ⟨((extract_text_error_taxonomy fsPdf "r.PDF").2.1 rfl (by decide)).1
      [some "hello", none, some "bye"] rfl,
   ((extract_text_error_taxonomy fsPdf "r.docx").2.2.1 rfl (by decide) (by decide)).2
      "boom" rfl,
   (extract_text_error_taxonomy fsAbsent "r.pdf").1 rfl⟩

/-- C8: if the encoder transform raises, `preprocess_resume` returns the
zero vector whose width is the model input dimension. -/
theorem preprocess_zero_vector_on_failure (S : JobRecommendationSystem)
    (text : String) (h : S.transform text = none) :
    preprocess_resume S text = List.replicate S.inputWidth 0 := by
  unfold preprocess_resume
  rw [h]

/-- Witness for C8 at a concrete failing transform. -/
theorem preprocess_zero_vector_on_failure_witness :
    preprocess_resume sysTransformFail "x" = List.replicate 4 0 :=
  preprocess_zero_vector_on_failure sysTransformFail "x" rfl

/-- C9: when no line of the text starts (after stripping) with one of the
six enumerator tokens, the fallback parser returns the empty list; hence
a 200 response whose text has no opening bracket and no enumerated
section makes `get_training_courses` return zero course records. -/
theorem fallback_empty_no_enumerators (S : JobRecommendationSystem)
    (job rt k text : String) (ed : Option String) (raw : String)
    (hl : ∀ l ∈ splitLines text, isEnumLine l = false)
    (hk : S.gemini_api_key = some k)
    (ha : S.api job rt = .response 200 (.ok text) ed raw)
    (hb : pyFind text '[' = -1) :
    extract_courses_from_text text = [] ∧
    get_training_courses S job rt = .ofRecords [] := by
  have h0 : extract_courses_from_text text = [] := by
    unfold extract_courses_from_text
    rw [splitSections_eq_nil _ hl]
    rfl
  refine ⟨h0, ?_⟩
  unfold get_training_courses get_training_coursesFull
  rw [hk, ha]
  simp only [reduceIte]
  have hcond : ¬(0 ≤ pyFind text '[' ∧ 0 < pyRFind text ']' + 1) := by
    rw [hb]
    intro hc
    exact absurd hc.1 (by decide)
  rw [if_neg hcond, h0]

/-- Witness for C9 at a concrete plain-prose 200 response. -/
theorem fallback_empty_no_enumerators_witness :
    extract_courses_from_text "no courses here.\nnothing found." = [] ∧
    get_training_courses sysNoEnum "j" "r" = .ofRecords [] :=
  fallback_empty_no_enumerators sysNoEnum "j" "r" "k" "no courses here.\nnothing found."
    none "" (by decide) rfl rfl (by decide)

/-- C10: if prediction raises, `get_top_job_recommendations` returns the
single sentinel `("Error in prediction", 0.0)` instead of propagating,
and the pipeline then calls enrichment with that literal job title and
attaches its result. -/
theorem prediction_error_sentinel_pipeline (S : JobRecommendationSystem)
    (fs : FS) (path text : String)
    (he : extract_text_from_resume fs path = .ok text)
    (hp : S.predict (preprocess_resume S text) = none) :
    get_top_job_recommendations S text 3 = [⟨"Error in prediction", 0⟩] ∧
    process_resume_file S fs path = .recommendations
      [⟨"Error in prediction", 0, get_training_courses S "Error in prediction" text⟩] := by
  have h1 : get_top_job_recommendations S text 3 = [⟨"Error in prediction", 0⟩] := by
    unfold get_top_job_recommendations
    simp only [hp]
  refine ⟨h1, ?_⟩
  have h2 : process_resume_fileE S fs path = Except.ok
      [⟨"Error in prediction", 0, get_training_courses S "Error in prediction" text⟩] := by
    unfold process_resume_fileE
    rw [he]
    show (Except.ok ((get_top_job_recommendations S text 3).map (fun job =>
        (⟨job.job_title, job.confidence,
          get_training_courses S job.job_title text⟩ : JobRecWithCourses)))
      : Except PyErr (List JobRecWithCourses)) = _
    rw [h1]
    rfl
  unfold process_resume_file
  rw [h2]

/-- Witness for C10 at a concrete failing predictor. -/
theorem prediction_error_sentinel_pipeline_witness :
    process_resume_file sysPredFail fsPdf "r.PDF" = .recommendations
      [⟨"Error in prediction", 0,
        get_training_courses sysPredFail "Error in prediction" "hello\n\nbye"⟩] :=
  (prediction_error_sentinel_pipeline sysPredFail fsPdf "r.PDF" "hello\n\nbye"
    rfl rfl).2
